import Mathlib

/-!
Shallow embedding of `src/src/lora.cpp` (WisBlock-API LoRa P2P link layer).

Global variables of the C translation unit become fields of `LoraState`.
Calls to external collaborators (the SX126x radio driver `Radio.*`,
`lora_rak4630_init`, `xSemaphoreGive`, `digitalWrite`, the wakeup timer)
are recorded in an `Effect` trace and, where they determine observable
state (radio operating mode, LED level, stored configuration), mirrored
in `LoraState`.  Machine integers are `Nat`/`Int` with an explicit
`% 2^w` at every point where the C parameter type forces a conversion
(`uint8_t size` in `send_lora_packet`, `uint16_t size` in `on_rx_done`,
`uint8_t` CAD detection peak).
-/

namespace WisBlockLora

/-- CAD detection-window lengths of the SX126x driver enum
`RadioLoRaCadSymbols_t` (`LORA_CAD_08_SYMBOL` is the 8-symbol window). -/
inductive CadSymbols
  | sym01
  | sym02
  | sym04
  | sym08
  | sym16
deriving DecidableEq

/-- CAD exit modes of the SX126x driver enum `RadioCadExitModes_t`. -/
inductive CadExitMode
  | cadOnly
  | cadRx
  | cadLbt
deriving DecidableEq

/-- Operating mode of the radio after the most recent `Radio.*` mode call. -/
inductive RadioMode
  | modeOff
  | modeSleep
  | modeRx
  | modeTx
  | modeCad
deriving DecidableEq

/-- The P2P fields of `g_lorawan_settings` read by `lora.cpp`. -/
structure LoraSettings where
  p2p_frequency : Nat
  p2p_tx_power : Nat
  p2p_bandwidth : Nat
  p2p_sf : Nat
  p2p_cr : Nat
  p2p_preamble_len : Nat
  p2p_symbol_timeout : Nat
  send_repeat_time : Nat
deriving DecidableEq

/-- Calls made to external collaborators, in program order. -/
inductive Effect
  | hwInit
  | radioInit
  | radioSleep
  | radioSetChannel (freq : Nat)
  | radioSetTxConfig (power bw sf cr preamble timeout : Nat)
  | radioSetRxConfig (bw sf cr preamble symbTimeout : Nat)
  | radioSetCadParams (sym : CadSymbols) (detPeak detMin : Nat)
      (exitMode : CadExitMode) (timeout : Nat)
  | radioRx (timeout : Nat)
  | radioSend (data : List Nat) (len : Nat)
  | radioStartCad
  | semGive
  | ledWrite (high : Bool)
  | timerBegin (interval : Nat)
  | timerStart
deriving DecidableEq

/-- The globals of `lora.cpp` and the externally observable state the
file drives.  `g_task_sem` is modelled as a `Bool` recording whether the
semaphore handle is non-null; `radioMode` tracks the mode after the last
radio mode call; `ledBuiltin` is the `LED_BUILTIN` pin level
(`true` = `HIGH`). -/
structure LoraState where
  g_lorawan_initialized : Bool
  g_lorawan_settings : LoraSettings
  g_tx_lora_data : List Nat
  g_tx_data_len : Nat
  g_rx_lora_data : List Nat
  g_rx_data_len : Nat
  g_last_rssi : Int
  g_last_snr : Int
  g_rx_fin_result : Bool
  g_task_event_type : Nat
  g_task_sem : Bool
  callbacksRegistered : Bool
  radioMode : RadioMode
  ledBuiltin : Bool
  channel : Nat
  txConfig : Option (Nat × Nat × Nat × Nat × Nat × Nat)
  rxConfig : Option (Nat × Nat × Nat × Nat × Nat)
  cadParams : Option (CadSymbols × Nat × Nat × CadExitMode × Nat)
  timerInterval : Option Nat
deriving DecidableEq

/-- Modelled from the spec: the event-flag bit for a received LoRa packet
(`LORA_DATA` in `WisBlock-API.h`, a header not part of this source tree).
Any single-bit value distinct from `LORA_TX_FIN` is faithful. -/
def LORA_DATA : Nat := 8

/-- Modelled from the spec: the event-flag bit for a finished transmission
(`LORA_TX_FIN` in `WisBlock-API.h`, a header not part of this source tree).
Any single-bit value distinct from `LORA_DATA` is faithful. -/
def LORA_TX_FIN : Nat := 16

/-- `memcpy(dst, src, n)` on byte buffers: the first `n` bytes of `dst`
are replaced by the first `n` bytes of `src`, the rest is untouched. -/
def writeBytes (dst src : List Nat) (n : Nat) : List Nat :=
  src.take n ++ dst.drop n

/-- The unconditional tail of `init_lora` (lines 52-80): `Radio.Sleep`,
`Radio.SetChannel`, `Radio.SetTxConfig`, `Radio.SetRxConfig`, the optional
wakeup timer, `Radio.Rx(0)`, `digitalWrite(LED_BUILTIN, LOW)`, and
`g_lorawan_initialized = true`. -/
def initConfig (s : LoraState) : LoraState × List Effect :=
  let st := s.g_lorawan_settings
  ({ s with
      radioMode := RadioMode.modeRx
      channel := st.p2p_frequency
      txConfig := some (st.p2p_tx_power, st.p2p_bandwidth, st.p2p_sf,
        st.p2p_cr, st.p2p_preamble_len, 5000)
      rxConfig := some (st.p2p_bandwidth, st.p2p_sf, st.p2p_cr,
        st.p2p_preamble_len, st.p2p_symbol_timeout)
      timerInterval :=
        if st.send_repeat_time ≠ 0 then some st.send_repeat_time
        else s.timerInterval
      ledBuiltin := false
      g_lorawan_initialized := true },
   [Effect.radioSleep, Effect.radioSetChannel st.p2p_frequency,
    Effect.radioSetTxConfig st.p2p_tx_power st.p2p_bandwidth st.p2p_sf
      st.p2p_cr st.p2p_preamble_len 5000,
    Effect.radioSetRxConfig st.p2p_bandwidth st.p2p_sf st.p2p_cr
      st.p2p_preamble_len st.p2p_symbol_timeout]
   ++ (if st.send_repeat_time ≠ 0 then
        [Effect.timerBegin st.send_repeat_time, Effect.timerStart] else [])
   ++ [Effect.radioRx 0, Effect.ledWrite false])

/-- `init_lora` (lines 31-81).  `hwOk` is the outcome of the external
`lora_rak4630_init()` hardware bring-up (`true` = returned 0); on the
first call it is attempted, and on failure the function returns `-1`
without registering callbacks or touching the radio.  Otherwise the
callbacks are registered via `Radio.Init` exactly once and the
configuration tail runs. -/
def init_lora (hwOk : Bool) (s : LoraState) : Int × LoraState × List Effect :=
  if s.g_lorawan_initialized = false then
    if hwOk = false then
      (-1, s, [Effect.hwInit])
    else
      let t := initConfig { s with callbacksRegistered := true }
      (0, t.1, Effect.hwInit :: Effect.radioInit :: t.2)
  else
    let t := initConfig s
    (0, t.1, t.2)

/-- `send_lora_packet(uint8_t *data, uint8_t size)` (lines 176-196).
The `size` parameter is a `uint8_t`, so the value the function body sees
is `size % 256`; the source guard `if (size > 256) return false;` is kept
verbatim.  On the accepting path: `g_tx_data_len = size`, `memcpy` into
`g_tx_lora_data`, `Radio.Sleep`, `Radio.SetCadParams(LORA_CAD_08_SYMBOL,
p2p_sf + 13, 10, LORA_CAD_ONLY, 0)` (the detection-peak parameter is a
`uint8_t`), `digitalWrite(LED_BUILTIN, HIGH)`, `Radio.StartCad`,
`return true`. -/
def send_lora_packet (data : List Nat) (size : Nat) (s : LoraState) :
    Bool × LoraState × List Effect :=
  let sz := size % 256
  if sz > 256 then
    (false, s, [])
  else
    let peak := (s.g_lorawan_settings.p2p_sf + 13) % 256
    (true,
     { s with
        g_tx_data_len := sz
        g_tx_lora_data := writeBytes s.g_tx_lora_data data sz
        cadParams := some (CadSymbols.sym08, peak, 10, CadExitMode.cadOnly, 0)
        ledBuiltin := true
        radioMode := RadioMode.modeCad },
     [Effect.radioSleep,
      Effect.radioSetCadParams CadSymbols.sym08 peak 10 CadExitMode.cadOnly 0,
      Effect.ledWrite true, Effect.radioStartCad])

/-- `on_tx_done` (lines 86-99): `g_rx_fin_result = true`,
`g_task_event_type |= LORA_TX_FIN`, one `xSemaphoreGive` when
`g_task_sem != NULL`, then `Radio.Rx(0)`. -/
def on_tx_done (s : LoraState) : LoraState × List Effect :=
  ({ s with
      g_rx_fin_result := true
      g_task_event_type := s.g_task_event_type ||| LORA_TX_FIN
      radioMode := RadioMode.modeRx },
   (if s.g_task_sem then [Effect.semGive] else []) ++ [Effect.radioRx 0])

/-- `on_tx_timeout` (lines 127-140): like `on_tx_done` but records
`g_rx_fin_result = false`. -/
def on_tx_timeout (s : LoraState) : LoraState × List Effect :=
  ({ s with
      g_rx_fin_result := false
      g_task_event_type := s.g_task_event_type ||| LORA_TX_FIN
      radioMode := RadioMode.modeRx },
   (if s.g_task_sem then [Effect.semGive] else []) ++ [Effect.radioRx 0])

/-- `on_rx_done(uint8_t *payload, uint16_t size, int16_t rssi, int8_t snr)`
(lines 103-123): records `g_last_rssi`/`g_last_snr`,
`memcpy(g_rx_lora_data, payload, size)`, `g_rx_data_len = size`,
`g_task_event_type |= LORA_DATA`, one `xSemaphoreGive` when
`g_task_sem != NULL`, then `Radio.Rx(0)`.  The `size` parameter is a
`uint16_t`, hence the `% 65536`. -/
def on_rx_done (payload : List Nat) (size : Nat) (rssi snr : Int)
    (s : LoraState) : LoraState × List Effect :=
  let sz := size % 65536
  ({ s with
      g_last_rssi := rssi
      g_last_snr := snr
      g_rx_lora_data := writeBytes s.g_rx_lora_data payload sz
      g_rx_data_len := sz
      g_task_event_type := s.g_task_event_type ||| LORA_DATA
      radioMode := RadioMode.modeRx },
   (if s.g_task_sem then [Effect.semGive] else []) ++ [Effect.radioRx 0])

/-- `on_rx_timeout` (lines 144-149): only `Radio.Rx(0)`. -/
def on_rx_timeout (s : LoraState) : LoraState × List Effect :=
  ({ s with radioMode := RadioMode.modeRx }, [Effect.radioRx 0])

/-- `on_rx_crc_error` (lines 153-156): only `Radio.Rx(0)`. -/
def on_rx_crc_error (s : LoraState) : LoraState × List Effect :=
  ({ s with radioMode := RadioMode.modeRx }, [Effect.radioRx 0])

/-- `on_cad_done(bool cadResult)` (lines 160-170): channel activity
detected (`cadResult = true`, channel busy) re-arms `Radio.Rx(0)`;
channel clear transmits `Radio.Send(g_tx_lora_data, g_tx_data_len)`. -/
def on_cad_done (cadResult : Bool) (s : LoraState) : LoraState × List Effect :=
  if cadResult then
    ({ s with radioMode := RadioMode.modeRx }, [Effect.radioRx 0])
  else
    ({ s with radioMode := RadioMode.modeTx },
     [Effect.radioSend s.g_tx_lora_data s.g_tx_data_len])

/-- Modelled from the spec: the spec's `LinkState` (§3) is an abstraction
of the link; the source has no such variable, so it is derived from the
concrete state: the link is `Listening` when the radio sits in continuous
receive, `Sensing` during CAD, `Transmitting` during a send, and
`Uninitialized` before `init_lora` succeeds. -/
inductive LinkState
  | Uninitialized
  | Listening
  | Sensing
  | Transmitting
deriving DecidableEq

/-- Modelled from the spec: abstraction function from the concrete
program state to the spec's `LinkState`. -/
def linkState (s : LoraState) : LinkState :=
  if s.g_lorawan_initialized then
    match s.radioMode with
    | RadioMode.modeRx => LinkState.Listening
    | RadioMode.modeCad => LinkState.Sensing
    | RadioMode.modeTx => LinkState.Transmitting
    | _ => LinkState.Uninitialized
  else LinkState.Uninitialized

/-- One step of the link: either an API call (`init_lora`,
`send_lora_packet`, possible in any state) or a radio callback.  The
guards on the callbacks encode the radio driver contract (spec §5): the
driver reports CAD completion only while CAD is in flight, transmit
outcome only while a transmission is in flight, and receive events only
in receive mode. -/
inductive Step : LoraState → LoraState → Prop
  | init (hwOk : Bool) (s : LoraState) : Step s (init_lora hwOk s).2.1
  | send (data : List Nat) (size : Nat) (s : LoraState) :
      Step s (send_lora_packet data size s).2.1
  | cadDone (b : Bool) (s : LoraState) (h : s.radioMode = RadioMode.modeCad) :
      Step s (on_cad_done b s).1
  | txDone (s : LoraState) (h : s.radioMode = RadioMode.modeTx) :
      Step s (on_tx_done s).1
  | txTimeout (s : LoraState) (h : s.radioMode = RadioMode.modeTx) :
      Step s (on_tx_timeout s).1
  | rxDone (payload : List Nat) (size : Nat) (rssi snr : Int) (s : LoraState)
      (h : s.radioMode = RadioMode.modeRx) :
      Step s (on_rx_done payload size rssi snr s).1
  | rxTimeout (s : LoraState) (h : s.radioMode = RadioMode.modeRx) :
      Step s (on_rx_timeout s).1
  | rxError (s : LoraState) (h : s.radioMode = RadioMode.modeRx) :
      Step s (on_rx_crc_error s).1

/-- States reachable from `s0` by any sequence of steps. -/
def Reachable (s0 s : LoraState) : Prop :=
  Relation.ReflTransGen Step s0 s

/-- A concrete radio-legal settings record (915 MHz, SF7, CR 4/5,
125 kHz, preamble 8, no repeat timer). -/
def defaultSettings : LoraSettings :=
  { p2p_frequency := 915000000
    p2p_tx_power := 22
    p2p_bandwidth := 0
    p2p_sf := 7
    p2p_cr := 1
    p2p_preamble_len := 8
    p2p_symbol_timeout := 0
    send_repeat_time := 0 }

/-- The state at program start: zero-initialized globals, a live consumer
semaphore, radio untouched. -/
def freshState : LoraState :=
  { g_lorawan_initialized := false
    g_lorawan_settings := defaultSettings
    g_tx_lora_data := List.replicate 256 0
    g_tx_data_len := 0
    g_rx_lora_data := List.replicate 256 0
    g_rx_data_len := 0
    g_last_rssi := 0
    g_last_snr := 0
    g_rx_fin_result := false
    g_task_event_type := 0
    g_task_sem := true
    callbacksRegistered := false
    radioMode := RadioMode.modeOff
    ledBuiltin := false
    channel := 0
    txConfig := none
    rxConfig := none
    cadParams := none
    timerInterval := none }

/-- The state after a successful `init_lora` from `freshState`. -/
def listenState : LoraState := (init_lora true freshState).2.1

/-- The state after `send_lora_packet([1, 2, 3], 3)` from `listenState`
(a send cycle in flight, CAD running). -/
def sendingState : LoraState := (send_lora_packet [1, 2, 3] 3 listenState).2.1

/-- The state after a full successful send cycle from `sendingState`:
CAD reports the channel clear, then the transmission completes. -/
def afterCycleState : LoraState :=
  (on_tx_done (on_cad_done false sendingState).1).1

/-- A state whose consumer wake semaphore is null. -/
def noSemState : LoraState := { listenState with g_task_sem := false }

/-- The guard `size > 256` of `send_lora_packet` can never fire: the
`uint8_t` parameter bounds the value by 255, so the function always takes
the accepting path. -/
theorem send_lora_packet_eq (data : List Nat) (size : Nat) (s : LoraState) :
    send_lora_packet data size s =
      (true,
       { s with
          g_tx_data_len := size % 256
          g_tx_lora_data := writeBytes s.g_tx_lora_data data (size % 256)
          cadParams := some (CadSymbols.sym08,
            (s.g_lorawan_settings.p2p_sf + 13) % 256, 10,
            CadExitMode.cadOnly, 0)
          ledBuiltin := true
          radioMode := RadioMode.modeCad },
       [Effect.radioSleep,
        Effect.radioSetCadParams CadSymbols.sym08
          ((s.g_lorawan_settings.p2p_sf + 13) % 256) 10 CadExitMode.cadOnly 0,
        Effect.ledWrite true, Effect.radioStartCad]) := by
  have h : ¬ (size % 256 > 256) := by
    have := Nat.mod_lt size (show 0 < 256 by omega)
    omega
  simp [send_lora_packet, h]

/-- A state the abstraction maps to `Listening` is an initialized state. -/
theorem linkState_listening_init (s : LoraState)
    (h : linkState s = LinkState.Listening) :
    s.g_lorawan_initialized = true := by
  cases hb : s.g_lorawan_initialized with
  | true => rfl
  | false => simp [linkState, hb] at h

/-- Claim C1, counterexample: from the reachable state `sendingState` a
send cycle is in flight (`LinkState = Sensing ≠ Listening`), yet a second
`send_lora_packet` call returns `true`, starts CAD again, and overwrites
`g_tx_data_len` — the source contains no link-state check and no
`LinkBusy` rejection. -/
theorem send_busy_not_rejected :
    linkState sendingState = LinkState.Sensing ∧
    (send_lora_packet [9] 1 sendingState).1 = true ∧
    Effect.radioStartCad ∈ (send_lora_packet [9] 1 sendingState).2.2 ∧
    ¬ (send_lora_packet [9] 1 sendingState).2.1.g_tx_data_len =
        sendingState.g_tx_data_len := by decide

/-- Claim C1, amended: `send_lora_packet` performs no link-state check;
even while a send cycle is in flight (`LinkState ≠ Listening`) the call
succeeds, invokes the radio primitives, and leaves the radio in CAD. -/
theorem send_ignores_link_state (s : LoraState) (data : List Nat)
    (size : Nat) (_hbusy : linkState s ≠ LinkState.Listening) :
    (send_lora_packet data size s).1 = true ∧
    Effect.radioStartCad ∈ (send_lora_packet data size s).2.2 ∧
    (send_lora_packet data size s).2.1.radioMode = RadioMode.modeCad := by
  rw [send_lora_packet_eq]
  refine ⟨rfl, ?_, rfl⟩
  simp

/-- Witness for `send_ignores_link_state` at the concrete busy state
`sendingState`. -/
theorem send_ignores_link_state_witness :
    linkState sendingState ≠ LinkState.Listening ∧
    (send_lora_packet [9] 1 sendingState).1 = true := by
  refine ⟨by decide, ?_⟩
  exact (send_ignores_link_state sendingState [9] 1 (by decide)).1

/-- Claim C2: the oversize guard is dead code.  Called with a 257-byte
payload, the `uint8_t size` parameter truncates 257 to 1, the guard
`size > 256` does not fire, and the call returns `true`, records a
1-byte frame, and starts CAD — instead of failing with
`PayloadTooLarge` as both the spec and the guard itself intend. -/
theorem send_oversize_accepted :
    (send_lora_packet (List.replicate 257 7) 257 listenState).1 = true ∧
    (send_lora_packet (List.replicate 257 7) 257 listenState).2.1.g_tx_data_len
      = 1 ∧
    Effect.radioStartCad ∈
      (send_lora_packet (List.replicate 257 7) 257 listenState).2.2 := by
  decide

/-- Claim C3: when the consumer semaphore exists, `on_tx_done` and
`on_tx_timeout` each re-arm continuous receive (`Radio.Rx(0)`), set the
`LORA_TX_FIN` bit (bit 4) without clearing any other bit of
`g_task_event_type`, record `g_rx_fin_result = true` / `false`
respectively, and give the semaphore exactly once. -/
theorem tx_callbacks_spec (s : LoraState) (hsem : s.g_task_sem = true) :
    Effect.radioRx 0 ∈ (on_tx_done s).2 ∧
    (on_tx_done s).1.g_task_event_type =
      s.g_task_event_type ||| LORA_TX_FIN ∧
    (on_tx_done s).1.g_task_event_type.testBit 4 = true ∧
    (∀ i, s.g_task_event_type.testBit i = true →
      (on_tx_done s).1.g_task_event_type.testBit i = true) ∧
    (on_tx_done s).1.g_rx_fin_result = true ∧
    (on_tx_done s).2.count Effect.semGive = 1 ∧
    Effect.radioRx 0 ∈ (on_tx_timeout s).2 ∧
    (on_tx_timeout s).1.g_task_event_type =
      s.g_task_event_type ||| LORA_TX_FIN ∧
    (on_tx_timeout s).1.g_task_event_type.testBit 4 = true ∧
    (∀ i, s.g_task_event_type.testBit i = true →
      (on_tx_timeout s).1.g_task_event_type.testBit i = true) ∧
    (on_tx_timeout s).1.g_rx_fin_result = false ∧
    (on_tx_timeout s).2.count Effect.semGive = 1 := by
  refine ⟨?_, rfl, ?_, ?_, rfl, ?_, ?_, rfl, ?_, ?_, rfl, ?_⟩ <;>
    simp [on_tx_done, on_tx_timeout, hsem, LORA_TX_FIN, Nat.testBit_or,
      List.count_cons, List.count_nil] <;>
    first
      | exact Or.inr (by decide)
      | exact fun i hi => Or.inl hi

/-- Witness for `tx_callbacks_spec` at the concrete state `listenState`. -/
theorem tx_callbacks_spec_witness :
    listenState.g_task_sem = true ∧
    (on_tx_done listenState).1.g_rx_fin_result = true ∧
    (on_tx_timeout listenState).1.g_rx_fin_result = false ∧
    (on_tx_done listenState).2.count Effect.semGive = 1 := by
  obtain ⟨-, -, -, -, h5, h6, -, -, -, -, h11, -⟩ :=
    tx_callbacks_spec listenState (by decide)
  exact ⟨by decide, h5, h11, h6⟩

/-- Claim C4: for any prior state (hence regardless of `LinkState`),
`on_rx_done` records rssi and snr, copies exactly the first `size` bytes
of the payload into `g_rx_lora_data` leaving the rest of the buffer
untouched, sets `g_rx_data_len = size`, sets the `LORA_DATA` bit (bit 3)
without clearing any other bit, gives the semaphore exactly once, and
re-arms continuous receive. -/
theorem on_rx_done_spec (s : LoraState) (payload : List Nat) (size : Nat)
    (rssi snr : Int) (hsz : size < 65536) (hlen : size ≤ payload.length)
    (hsem : s.g_task_sem = true) :
    (on_rx_done payload size rssi snr s).1.g_last_rssi = rssi ∧
    (on_rx_done payload size rssi snr s).1.g_last_snr = snr ∧
    (on_rx_done payload size rssi snr s).1.g_rx_lora_data.take size =
      payload.take size ∧
    (on_rx_done payload size rssi snr s).1.g_rx_lora_data.drop size =
      s.g_rx_lora_data.drop size ∧
    (on_rx_done payload size rssi snr s).1.g_rx_data_len = size ∧
    (on_rx_done payload size rssi snr s).1.g_task_event_type.testBit 3 =
      true ∧
    (∀ i, s.g_task_event_type.testBit i = true →
      (on_rx_done payload size rssi snr s).1.g_task_event_type.testBit i =
        true) ∧
    (on_rx_done payload size rssi snr s).2.count Effect.semGive = 1 ∧
    Effect.radioRx 0 ∈ (on_rx_done payload size rssi snr s).2 := by
  have hmod : size % 65536 = size := Nat.mod_eq_of_lt hsz
  have htk : (payload.take size).length = size := by
    rw [List.length_take]
    omega
  refine ⟨rfl, rfl, ?_, ?_, ?_, ?_, ?_, ?_, ?_⟩ <;>
    simp [on_rx_done, writeBytes, hmod, hsem, LORA_DATA, Nat.testBit_or,
      List.count_cons, List.count_nil, List.take_left' htk,
      List.drop_left' htk] <;>
    first
      | exact Or.inr (by decide)
      | exact fun i hi => Or.inl hi

/-- Witness for `on_rx_done_spec` at the concrete state `listenState`
with a 3-byte frame. -/
theorem on_rx_done_spec_witness :
    (3 : Nat) < 65536 ∧ (3 : Nat) ≤ ([10, 20, 30] : List Nat).length ∧
    listenState.g_task_sem = true ∧
    (on_rx_done [10, 20, 30] 3 (-80) 7 listenState).1.g_rx_data_len = 3 := by
  refine ⟨by decide, by decide, by decide, ?_⟩
  exact (on_rx_done_spec listenState [10, 20, 30] 3 (-80) 7 (by decide)
    (by decide) (by decide)).2.2.2.2.1

/-- Claim C10: when the consumer semaphore is null, `on_tx_done`,
`on_tx_timeout` and `on_rx_done` never give the semaphore yet still
complete every other effect: the result is recorded, the event bit is
OR-ed in, and continuous receive is re-armed. -/
theorem callbacks_null_sem_safe (s : LoraState) (payload : List Nat)
    (size : Nat) (rssi snr : Int) (hsem : s.g_task_sem = false) :
    Effect.semGive ∉ (on_tx_done s).2 ∧
    (on_tx_done s).1.g_rx_fin_result = true ∧
    (on_tx_done s).1.g_task_event_type =
      s.g_task_event_type ||| LORA_TX_FIN ∧
    Effect.radioRx 0 ∈ (on_tx_done s).2 ∧
    Effect.semGive ∉ (on_tx_timeout s).2 ∧
    (on_tx_timeout s).1.g_rx_fin_result = false ∧
    (on_tx_timeout s).1.g_task_event_type =
      s.g_task_event_type ||| LORA_TX_FIN ∧
    Effect.radioRx 0 ∈ (on_tx_timeout s).2 ∧
    Effect.semGive ∉ (on_rx_done payload size rssi snr s).2 ∧
    (on_rx_done payload size rssi snr s).1.g_rx_data_len = size % 65536 ∧
    (on_rx_done payload size rssi snr s).1.g_task_event_type =
      s.g_task_event_type ||| LORA_DATA ∧
    Effect.radioRx 0 ∈ (on_rx_done payload size rssi snr s).2 := by
  refine ⟨?_, rfl, rfl, ?_, ?_, rfl, rfl, ?_, ?_, rfl, rfl, ?_⟩ <;>
    simp [on_tx_done, on_tx_timeout, on_rx_done, hsem]

/-- Witness for `callbacks_null_sem_safe` at the concrete null-semaphore
state `noSemState`. -/
theorem callbacks_null_sem_safe_witness :
    noSemState.g_task_sem = false ∧
    Effect.semGive ∉ (on_tx_done noSemState).2 ∧
    (on_tx_done noSemState).1.g_rx_fin_result = true := by
  have h := callbacks_null_sem_safe noSemState [1] 1 0 0 (by decide)
  exact ⟨by decide, h.1, h.2.1⟩

set_option maxRecDepth 4000 in
/-- Claim C5, counterexample: a 256-byte payload satisfies the claim's
bound `length ≤ 256` and is requested from `Listening`, and the call does
return `true` — but the `uint8_t size` parameter truncates 256 to 0, so
nothing is copied into `PendingTxFrame` (`g_tx_data_len = 0`), contrary
to the claim that the payload is copied. -/
theorem send_256_truncated :
    (List.replicate 256 5).length ≤ 256 ∧
    linkState listenState = LinkState.Listening ∧
    (send_lora_packet (List.replicate 256 5) 256 listenState).1 = true ∧
    (send_lora_packet (List.replicate 256 5) 256 listenState).2.1.g_tx_data_len
      = 0 := by
  exact ⟨by simp, by decide, by decide, by decide⟩

/-- Claim C5, amended: for payload lengths up to 255 (the maximum the
`uint8_t` length parameter can carry) requested while `Listening`, the
call succeeds, copies the payload into `PendingTxFrame`, sleeps the
radio, configures CAD with the 8-symbol window, detection threshold
`p2p_sf + 13`, peak count 10, CAD-only exit and zero timeout, drives the
LED high, starts CAD, and moves the link to `Sensing`. -/
theorem send_accept_spec (s : LoraState) (data : List Nat) (size : Nat)
    (hls : linkState s = LinkState.Listening) (hsz : size ≤ 255)
    (hlen : size ≤ data.length)
    (hsf : s.g_lorawan_settings.p2p_sf + 13 < 256) :
    (send_lora_packet data size s).1 = true ∧
    (send_lora_packet data size s).2.1.g_tx_data_len = size ∧
    (send_lora_packet data size s).2.1.g_tx_lora_data.take size =
      data.take size ∧
    (send_lora_packet data size s).2.2 =
      [Effect.radioSleep,
       Effect.radioSetCadParams CadSymbols.sym08
         (s.g_lorawan_settings.p2p_sf + 13) 10 CadExitMode.cadOnly 0,
       Effect.ledWrite true, Effect.radioStartCad] ∧
    (send_lora_packet data size s).2.1.ledBuiltin = true ∧
    linkState (send_lora_packet data size s).2.1 = LinkState.Sensing := by
  have hin := linkState_listening_init s hls
  have hmod : size % 256 = size := Nat.mod_eq_of_lt (by omega)
  have hpeak : (s.g_lorawan_settings.p2p_sf + 13) % 256 =
      s.g_lorawan_settings.p2p_sf + 13 := Nat.mod_eq_of_lt hsf
  have htk : (data.take size).length = size := by
    rw [List.length_take]
    omega
  rw [send_lora_packet_eq]
  refine ⟨rfl, hmod, ?_, ?_, rfl, ?_⟩
  · simp [writeBytes, hmod, List.take_left' htk]
  · simp [hpeak]
  · simp [linkState, hin]

/-- Witness for `send_accept_spec` at `listenState` with a 3-byte
payload (SF 7, so the CAD threshold is 20). -/
theorem send_accept_spec_witness :
    linkState listenState = LinkState.Listening ∧
    (send_lora_packet [1, 2, 3] 3 listenState).1 = true ∧
    (send_lora_packet [1, 2, 3] 3 listenState).2.1.g_tx_data_len = 3 := by
  have h := send_accept_spec listenState [1, 2, 3] 3 (by decide) (by decide)
    (by decide) (by decide)
  exact ⟨by decide, h.1, h.2.1⟩

/-- Claim C6: on a busy channel (`cadResult = true`) the CAD handler only
re-arms continuous receive — `g_task_event_type` is untouched (so
`LORA_TX_FIN` is not set), the semaphore is not given, and the link
returns to `Listening`. -/
theorem on_cad_busy_spec (s : LoraState)
    (hinit : s.g_lorawan_initialized = true) :
    (on_cad_done true s).2 = [Effect.radioRx 0] ∧
    (on_cad_done true s).1.g_task_event_type = s.g_task_event_type ∧
    Effect.semGive ∉ (on_cad_done true s).2 ∧
    linkState (on_cad_done true s).1 = LinkState.Listening := by
  refine ⟨rfl, rfl, ?_, ?_⟩
  · simp [on_cad_done]
  · simp [on_cad_done, linkState, hinit]

/-- Witness for `on_cad_busy_spec` at the concrete mid-cycle state
`sendingState`. -/
theorem on_cad_busy_spec_witness :
    sendingState.g_lorawan_initialized = true ∧
    linkState (on_cad_done true sendingState).1 = LinkState.Listening := by
  exact ⟨by decide, (on_cad_busy_spec sendingState (by decide)).2.2.2⟩

/-- Claim C7: on a clear channel (`cadResult = false`) the CAD handler
invokes `Radio.Send` with exactly the buffer and length stored in
`PendingTxFrame` by the accepting `send_lora_packet` call, and the link
moves to `Transmitting`. -/
theorem on_cad_clear_spec (s : LoraState) (data : List Nat) (size : Nat)
    (hinit : s.g_lorawan_initialized = true) (hsz : size ≤ 255)
    (hlen : size ≤ data.length) :
    (on_cad_done false (send_lora_packet data size s).2.1).2 =
      [Effect.radioSend (send_lora_packet data size s).2.1.g_tx_lora_data
        (send_lora_packet data size s).2.1.g_tx_data_len] ∧
    (send_lora_packet data size s).2.1.g_tx_data_len = size ∧
    (send_lora_packet data size s).2.1.g_tx_lora_data.take size =
      data.take size ∧
    linkState (on_cad_done false (send_lora_packet data size s).2.1).1 =
      LinkState.Transmitting := by
  have hmod : size % 256 = size := Nat.mod_eq_of_lt (by omega)
  have htk : (data.take size).length = size := by
    rw [List.length_take]
    omega
  rw [send_lora_packet_eq]
  refine ⟨rfl, hmod, ?_, ?_⟩
  · simp [writeBytes, hmod, List.take_left' htk]
  · simp [on_cad_done, linkState, hinit]

/-- Witness for `on_cad_clear_spec` at `listenState` with the 3-byte
payload. -/
theorem on_cad_clear_spec_witness :
    listenState.g_lorawan_initialized = true ∧
    linkState (on_cad_done false (send_lora_packet [1, 2, 3] 3
      listenState).2.1).1 = LinkState.Transmitting := by
  exact ⟨by decide,
    (on_cad_clear_spec listenState [1, 2, 3] 3 (by decide) (by decide)
      (by decide)).2.2.2⟩

/-- Claim C8: from an uninitialized state, a first successful `init_lora`
runs the hardware bring-up and the callback registration exactly once;
a second call with the same settings runs neither again, yet ends in the
very same configured state (channel, tx and rx configuration, continuous
receive, LED, timer) as the single call. -/
theorem init_lora_idempotent (s : LoraState)
    (h : s.g_lorawan_initialized = false) :
    (init_lora true s).1 = 0 ∧
    (init_lora true (init_lora true s).2.1).1 = 0 ∧
    (init_lora true (init_lora true s).2.1).2.1 = (init_lora true s).2.1 ∧
    ((init_lora true s).2.2).count Effect.hwInit = 1 ∧
    ((init_lora true s).2.2).count Effect.radioInit = 1 ∧
    Effect.hwInit ∉ (init_lora true (init_lora true s).2.1).2.2 ∧
    Effect.radioInit ∉ (init_lora true (init_lora true s).2.1).2.2 := by
  by_cases hrt : s.g_lorawan_settings.send_repeat_time = 0 <;>
    simp [init_lora, initConfig, h, hrt, List.count_cons, List.count_nil,
      List.count_append]

/-- Witness for `init_lora_idempotent` at the concrete `freshState`. -/
theorem init_lora_idempotent_witness :
    freshState.g_lorawan_initialized = false ∧
    (init_lora true (init_lora true freshState).2.1).2.1 =
      (init_lora true freshState).2.1 ∧
    Effect.hwInit ∉ (init_lora true (init_lora true freshState).2.1).2.2 := by
  have h := init_lora_idempotent freshState (by decide)
  exact ⟨by decide, h.2.2.1, h.2.2.2.2.2.1⟩

/-- The one-directional LED invariant: whenever the link is actively
sensing or transmitting, the `LED_BUILTIN` indicator is high. -/
def LedHighWhenActive (s : LoraState) : Prop :=
  (linkState s = LinkState.Sensing ∨ linkState s = LinkState.Transmitting) →
    s.ledBuiltin = true

/-- Every step of the link preserves `LedHighWhenActive`. -/
theorem ledHighWhenActive_step {s s' : LoraState}
    (hs : LedHighWhenActive s) (hstep : Step s s') :
    LedHighWhenActive s' := by
  cases hstep with
  | init hwOk s =>
      intro hact
      by_cases hi : s.g_lorawan_initialized = false
      · by_cases hw : hwOk = false
        · simp only [init_lora, hi, hw, if_pos, if_true] at hact ⊢
          exact hs hact
        · simp [init_lora, initConfig, hi, hw, linkState] at hact
      · simp [init_lora, initConfig, hi, linkState] at hact
  | send data size s =>
      intro hact
      rw [send_lora_packet_eq]
  | cadDone b s h =>
      cases b with
      | true =>
          intro hact
          cases hib : s.g_lorawan_initialized <;>
            simp [on_cad_done, linkState, hib] at hact
      | false =>
          intro hact
          cases hib : s.g_lorawan_initialized with
          | false => simp [on_cad_done, linkState, hib] at hact
          | true =>
              show s.ledBuiltin = true
              exact hs (Or.inl (by simp [linkState, hib, h]))
  | txDone s h =>
      intro hact
      cases hib : s.g_lorawan_initialized <;>
        simp [on_tx_done, linkState, hib] at hact
  | txTimeout s h =>
      intro hact
      cases hib : s.g_lorawan_initialized <;>
        simp [on_tx_timeout, linkState, hib] at hact
  | rxDone payload size rssi snr s h =>
      intro hact
      cases hib : s.g_lorawan_initialized <;>
        simp [on_rx_done, linkState, hib] at hact
  | rxTimeout s h =>
      intro hact
      cases hib : s.g_lorawan_initialized <;>
        simp [on_rx_timeout, linkState, hib] at hact
  | rxError s h =>
      intro hact
      cases hib : s.g_lorawan_initialized <;>
        simp [on_rx_crc_error, linkState, hib] at hact

/-- `LedHighWhenActive` holds in every state reachable from a state
satisfying it. -/
theorem ledHighWhenActive_reachable {s0 s : LoraState}
    (h0 : LedHighWhenActive s0) (hr : Reachable s0 s) :
    LedHighWhenActive s := by
  induction hr with
  | refl => exact h0
  | tail _hab hstep ih => exact ledHighWhenActive_step ih hstep

/-- Claim C9, counterexample: the state after a complete successful send
cycle (init, send, CAD clear, transmit complete) is reachable, the link
is back to `Listening`, yet `LED_BUILTIN` is still high — no callback
ever drives the indicator low, only `init_lora` does, so the claimed
"low otherwise" direction is false. -/
theorem led_stays_high_after_cycle :
    Reachable freshState afterCycleState ∧
    linkState afterCycleState = LinkState.Listening ∧
    afterCycleState.ledBuiltin = true := by
  refine ⟨?_, by decide, by decide⟩
  have h1 : Step freshState listenState := Step.init true freshState
  have h2 : Step listenState sendingState :=
    Step.send [1, 2, 3] 3 listenState
  have h3 : Step sendingState (on_cad_done false sendingState).1 :=
    Step.cadDone false sendingState (by decide)
  have h4 : Step (on_cad_done false sendingState).1 afterCycleState :=
    Step.txDone (on_cad_done false sendingState).1 (by decide)
  exact Relation.ReflTransGen.tail (Relation.ReflTransGen.tail
    (Relation.ReflTransGen.tail (Relation.ReflTransGen.single h1) h2) h3) h4

/-- Claim C9, amended: in every state reachable from an uninitialized
start, the indicator is high whenever the link is `Sensing` or
`Transmitting`; the converse direction of the claim is false — the
indicator is lowered only by `init_lora`, so it stays high in `Listening`
after the first accepted send (see `led_stays_high_after_cycle`). -/
theorem led_high_while_active (s0 s : LoraState)
    (h0 : s0.g_lorawan_initialized = false) (hr : Reachable s0 s)
    (hact : linkState s = LinkState.Sensing ∨
      linkState s = LinkState.Transmitting) :
    s.ledBuiltin = true := by
  have base : LedHighWhenActive s0 := by
    intro hc
    simp [linkState, h0] at hc
  exact ledHighWhenActive_reachable base hr hact

/-- Witness for `led_high_while_active`: the concrete sensing state
`sendingState`, reachable from `freshState` in two steps, has the LED
high. -/
theorem led_high_while_active_witness :
    freshState.g_lorawan_initialized = false ∧
    sendingState.ledBuiltin = true := by
  refine ⟨by decide, ?_⟩
  have h1 : Step freshState listenState := Step.init true freshState
  have h2 : Step listenState sendingState :=
    Step.send [1, 2, 3] 3 listenState
  exact led_high_while_active freshState sendingState (by decide)
    (Relation.ReflTransGen.tail (Relation.ReflTransGen.single h1) h2)
    (Or.inl (by decide))

end WisBlockLora

